import Mathlib

/-!
Verification model of the gpio-interrupt firmware (src/main.rs): an RTIC
application that debounces a push-button on pin 16 (internal 22k pull-up,
falling-edge interrupt) and toggles the on-board LED on pin 13.

The embedding models the electrical level of the button line, the
hardware pending-interrupt latch, the shared pressed flag, the LED
output, and the capacity-one deferred-spawn slot for the debounce task.
-/

/-- Electrical level of a GPIO line. -/
inductive Level where
  | low
  | high
  deriving DecidableEq, Repr

/-- Electrical level of the button line while the button is pressed.
With the 22k internal pull-up configured in `init` and the press pulling
the line to ground (which is what makes the falling-edge trigger fire on
a press), a pressed button reads low and a released button reads high. -/
def pressedLevel : Level := Level.low

/-- Reading of `gpio::Input::is_set`: true when the line reads high. -/
def levelIsSet (l : Level) : Bool :=
  match l with
  | Level.high => true
  | Level.low => false

/-- Button input pin (pin 16): current electrical level, the
hardware-latched pending-interrupt flag, the pull-up configuration and
the falling-edge trigger arming. -/
structure Button where
  level : Level
  pendingIrq : Bool
  pullup : Bool
  fallingEdgeIrq : Bool
  deriving DecidableEq, Repr

/-- `button.clear_triggered()`: clears the hardware pending-interrupt latch. -/
def Button.clear_triggered (b : Button) : Button :=
  { b with pendingIrq := false }

/-- `button.is_set()` on the input pin: samples the electrical level. -/
def Button.is_set (b : Button) : Bool :=
  levelIsSet b.level

/-- LED output pin (pin 13); `level = true` means driven high (on). -/
structure Led where
  level : Bool
  deriving DecidableEq, Repr

/-- `led.toggle()`. -/
def Led.toggle (l : Led) : Led :=
  { level := !l.level }

/-- `systick_monotonic::fugit::Duration::<u64, NOM, DENOM>`: a tick
count whose tick length is `nom / denom` seconds. -/
structure Duration where
  ticks : Nat
  nom : Nat
  denom : Nat
  deriving DecidableEq, Repr

/-- Milliseconds denoted by a duration. -/
def Duration.toMillis (d : Duration) : Nat :=
  d.ticks * d.nom * 1000 / d.denom

/-- The delay `int_toggle` passes to `debounce::spawn_after`
(source line 81): `Duration::<u64, 1, 1000>::from_ticks(5000)`. -/
def delay_500ms : Duration :=
  { ticks := 5000, nom := 1, denom := 1000 }

/-- Distinct `log::info!` call sites of the two task bodies:
"Interrupt was triggered!", "bounce...", "debounced!". -/
inductive LogMsg where
  | interruptTriggered
  | bounce
  | debounced
  deriving DecidableEq, Repr

/-- Observable effects of a task body, in program order. -/
inductive Event where
  | log (m : LogMsg)
  | toggleLed
  | scheduleDebounce (d : Duration)
  deriving DecidableEq, Repr

/-- Firmware state: the shared resources (`pressed`, `button`), the
LED handle local to `int_toggle`, and whether a `debounce` task is
currently sitting in the scheduler queue. -/
structure SysState where
  pressed : Bool
  button : Button
  led : Led
  debouncePending : Bool
  deriving DecidableEq, Repr

/-- Scheduling error of the deferred-spawn call. -/
inductive SpawnError where
  | alreadyPending
  deriving DecidableEq, Repr

/-- Deferred-spawn contract of the monotonic scheduler (spec section 6,
`schedule_after`): fails when a `debounce` task is already pending (the
spawn queue has capacity one), succeeds otherwise. -/
def spawn_after (pendingTask : Bool) (_d : Duration) : Except SpawnError Unit :=
  if pendingTask then Except.error SpawnError.alreadyPending else Except.ok ()

/-- Result of one `int_toggle` invocation: the post state, the emitted
effects in order, and whether the body panicked (the `unwrap` on the
`spawn_after` result). -/
structure IntToggleResult where
  state : SysState
  events : List Event
  panicked : Bool
  deriving DecidableEq, Repr

/-- The edge-interrupt handler `int_toggle` (source lines 73-109). It
first clears the hardware pending-interrupt latch under the `button`
lock, then under the `pressed` lock: on `pressed == false` it logs,
sets `pressed`, toggles the LED and schedules `debounce` after
`delay_500ms`, panicking if the spawn fails; on `pressed == true` it
only logs a bounce. -/
def int_toggle (s : SysState) : IntToggleResult :=
  let b1 := s.button.clear_triggered
  if s.pressed = false then
    match spawn_after s.debouncePending delay_500ms with
    | Except.error _ =>
      { state := { pressed := true, button := b1, led := s.led.toggle,
                   debouncePending := s.debouncePending },
        events := [Event.log LogMsg.interruptTriggered, Event.toggleLed],
        panicked := true }
    | Except.ok _ =>
      { state := { pressed := true, button := b1, led := s.led.toggle,
                   debouncePending := true },
        events := [Event.log LogMsg.interruptTriggered, Event.toggleLed,
                   Event.scheduleDebounce delay_500ms],
        panicked := false }
  else
    { state := { s with button := b1 },
      events := [Event.log LogMsg.bounce],
      panicked := false }

/-- The busy-poll loop of `debounce` (source lines 121-125):
`while button.is_set() {}`, sampled against the stream `levels` of
electrical levels; `fuel` bounds the number of samples examined, and
`some i` reports the sample index at which the loop exited. -/
def busyPoll (levels : Nat → Level) : Nat → Nat → Option Nat
  | 0, _ => none
  | fuel + 1, i => if levelIsSet (levels i) then busyPoll levels fuel (i + 1) else some i

/-- The deferred `debounce` task (source lines 112-131): logs, busy-polls
the button level under the `button` lock, then clears `pressed` under
the `pressed` lock. `none` means the poll is still spinning after `fuel`
samples, with no write to `pressed` performed yet. -/
def debounce (levels : Nat → Level) (fuel : Nat) (s : SysState) :
    Option (SysState × List Event) :=
  match busyPoll levels fuel 0 with
  | none => none
  | some _ =>
    some ({ s with pressed := false, debouncePending := false },
          [Event.log LogMsg.debounced])

/-- Source of a state transition: a hardware edge interrupt dispatching
`int_toggle`, the scheduler dispatching `debounce`, or the idle loop. -/
inductive Label where
  | irq
  | debounceRun
  | idle
  deriving DecidableEq, Repr

/-- One scheduling step of the system. A `debounce` poll that has not
exited within `fuel` samples leaves the state unchanged: the task is
still spinning inside the `button` lock and has not written `pressed`. -/
def step (l : Label) (levels : Nat → Level) (fuel : Nat) (s : SysState) : SysState :=
  match l with
  | Label.irq => (int_toggle s).state
  | Label.debounceRun =>
    match debounce levels fuel s with
    | some r => r.1
    | none => s
  | Label.idle => s

/-- `n` consecutive falling-edge interrupts with no `debounce` dispatch
in between: the final state and the concatenation of all events. -/
def burst : Nat → SysState → SysState × List Event
  | 0, s => (s, [])
  | n + 1, s =>
    let r := int_toggle s
    let rest := burst n r.state
    (rest.1, r.events ++ rest.2)

/-- Recognises the LED-toggle effect. -/
def isToggleEv : Event → Bool
  | Event.toggleLed => true
  | _ => false

/-- Recognises the deferred-spawn effect. -/
def isSchedEv : Event → Bool
  | Event.scheduleDebounce _ => true
  | _ => false

/-- Number of LED toggles recorded in an event list. -/
def toggleCount (evs : List Event) : Nat :=
  (evs.filter isToggleEv).length

/-- Number of `debounce` spawns recorded in an event list. -/
def schedCount (evs : List Event) : Nat :=
  (evs.filter isSchedEv).length

/-- The `init` task (source lines 33-64), parameterised by the initial
electrical level and pending latch the hardware starts with: configures
the 22k pull-up on pin 16, arms the falling-edge trigger, drives the LED
low (`led.clear()`), and returns `pressed = false` with an empty
scheduler queue. -/
def init (lvl : Level) (pending : Bool) : SysState :=
  { pressed := false,
    button := { level := lvl, pendingIrq := pending, pullup := true, fallingEdgeIrq := true },
    led := { level := false },
    debouncePending := false }

/-- The two shared resources of the app. -/
inductive Res where
  | buttonRes
  | pressedRes
  deriving DecidableEq, Repr

/-- Acquisition and release events of the scoped `lock` closures. -/
inductive LockEv where
  | acq (r : Res)
  | rel (r : Res)
  deriving DecidableEq, Repr

/-- Lock events of `int_toggle` in program order: `button.lock` around
`clear_triggered`, then `pressed.lock` around the branch. -/
def intToggleLocks : List LockEv :=
  [LockEv.acq Res.buttonRes, LockEv.rel Res.buttonRes,
   LockEv.acq Res.pressedRes, LockEv.rel Res.pressedRes]

/-- Lock events of `debounce` in program order: `button.lock` around the
busy-poll, then `pressed.lock` around the flag clear. -/
def debounceLocks : List LockEv :=
  [LockEv.acq Res.buttonRes, LockEv.rel Res.buttonRes,
   LockEv.acq Res.pressedRes, LockEv.rel Res.pressedRes]

/-- Resources held after processing a sequence of lock events. -/
def heldAfter (evs : List LockEv) : List Res :=
  evs.foldl
    (fun held e =>
      match e with
      | LockEv.acq r => r :: held
      | LockEv.rel r => held.erase r)
    []

/-- A lock-event sequence is sequential when at most one resource is
held at every point of the body. -/
def sequentialLocks (evs : List LockEv) : Bool :=
  (List.range (evs.length + 1)).all fun i => decide ((heldAfter (evs.take i)).length ≤ 1)

/-- Level stream of a button held closed forever (stuck pressed). -/
def stuckPressed : Nat → Level := fun _ => pressedLevel

/-- Level stream of a button released forever. -/
def stuckReleased : Nat → Level := fun _ => Level.high

/-- A quiescent state: no press in flight, LED off, queue empty. -/
def sIdle : SysState := init Level.high false

/-- A state inside a debounce window: `pressed` set, LED on, a new edge
latched, and a `debounce` task pending. -/
def sWindow : SysState :=
  { pressed := true,
    button := { level := Level.low, pendingIrq := true, pullup := true, fallingEdgeIrq := true },
    led := { level := true },
    debouncePending := true }

/-- A state with `pressed` already cleared while a `debounce` task is
still pending in the queue (spawn would fail here). -/
def sStale : SysState :=
  { sWindow with pressed := false }

lemma int_toggle_pressed (s : SysState) : (int_toggle s).state.pressed = true := by
  unfold int_toggle
  cases hp : s.pressed with
  | false => cases hd : s.debouncePending <;> simp [spawn_after]
  | true => simp

lemma int_toggle_bounce (s : SysState) (h : s.pressed = true) :
    int_toggle s =
      { state := { s with button := s.button.clear_triggered },
        events := [Event.log LogMsg.bounce], panicked := false } := by
  unfold int_toggle
  simp [h]

lemma int_toggle_fresh (s : SysState) (hp : s.pressed = false)
    (hd : s.debouncePending = false) :
    int_toggle s =
      { state := { pressed := true, button := s.button.clear_triggered,
                   led := s.led.toggle, debouncePending := true },
        events := [Event.log LogMsg.interruptTriggered, Event.toggleLed,
                   Event.scheduleDebounce delay_500ms],
        panicked := false } := by
  unfold int_toggle
  simp [hp, hd, spawn_after]

lemma toggleCount_append (a b : List Event) :
    toggleCount (a ++ b) = toggleCount a + toggleCount b := by
  simp [toggleCount]

lemma schedCount_append (a b : List Event) :
    schedCount (a ++ b) = schedCount a + schedCount b := by
  simp [schedCount]

lemma burst_bounce (n : Nat) (s : SysState) (h : s.pressed = true) :
    (burst n s).1.pressed = true ∧ (burst n s).1.led = s.led ∧
    toggleCount (burst n s).2 = 0 ∧ schedCount (burst n s).2 = 0 := by
  induction n generalizing s with
  | zero => simp [burst, h, toggleCount, schedCount]
  | succ n ih =>
    have hb := int_toggle_bounce s h
    have hfst : (burst (n + 1) s).1 = (burst n (int_toggle s).state).1 := rfl
    have hsnd : (burst (n + 1) s).2 =
        (int_toggle s).events ++ (burst n (int_toggle s).state).2 := rfl
    have hps : (int_toggle s).state.pressed = true := by rw [hb]; exact h
    obtain ⟨ih1, ih2, ih3, ih4⟩ := ih (int_toggle s).state hps
    refine ⟨by rw [hfst]; exact ih1, ?_, ?_, ?_⟩
    · rw [hfst, ih2, hb]
    · rw [hsnd, toggleCount_append, ih3, hb]; rfl
    · rw [hsnd, schedCount_append, ih4, hb]; rfl

/-- C1: on every invocation of the edge-interrupt handler `int_toggle`,
the hardware pending-interrupt flag on the button line is cleared in the
resulting state, in the new-press branch and in the bounce branch alike. -/
theorem c1_pending_cleared (s : SysState) :
    (int_toggle s).state.button.pendingIrq = false := by
  unfold int_toggle
  cases hp : s.pressed with
  | false =>
    cases hd : s.debouncePending <;> simp [spawn_after, Button.clear_triggered]
  | true => simp [Button.clear_triggered]

/-- C2: the duration the code passes to `debounce::spawn_after` is
`from_ticks 5000` at a one-millisecond tick, i.e. 5000 ms — not the
500 ms stated by the specification and by the variable's own name
`delay_500ms`. -/
theorem c2_delay_is_5000ms :
    delay_500ms.toMillis = 5000 ∧ delay_500ms.toMillis ≠ 500 := by
  decide

/-- C3: with the pull-up configuration a pressed button reads low, yet
the `debounce` poll `while button.is_set()` exits exactly on a low
sample: on a level stream that constantly reads pressed the poll exits
at the very first sample, and the task then clears `pressed` while the
line still reads pressed — the opposite of the specified behaviour. -/
theorem c3_clears_while_pressed :
    (∀ i, stuckPressed i = pressedLevel) ∧
    busyPoll stuckPressed 1 0 = some 0 ∧
    (debounce stuckPressed 1 sWindow).map (fun r => r.1.pressed) = some false := by
  refine ⟨fun _ => rfl, rfl, rfl⟩

/-- C4: `pressed` changes only false-to-true under an `irq` step (the
new-press branch of `int_toggle`) and only true-to-false under a
`debounceRun` step; `idle` steps and bounce-branch `irq` steps never
change it. -/
theorem c4_flag_transitions (l : Label) (levels : Nat → Level) (fuel : Nat)
    (s : SysState) (h : (step l levels fuel s).pressed ≠ s.pressed) :
    (s.pressed = false ∧ (step l levels fuel s).pressed = true ∧ l = Label.irq) ∨
    (s.pressed = true ∧ (step l levels fuel s).pressed = false ∧ l = Label.debounceRun) := by
  cases l with
  | idle => exact absurd rfl h
  | irq =>
    have hp := int_toggle_pressed s
    cases hs : s.pressed with
    | false => exact Or.inl ⟨rfl, hp, rfl⟩
    | true => exact absurd (hp.trans hs.symm) h
  | debounceRun =>
    cases hd : debounce levels fuel s with
    | none => exact absurd (by simp [step, hd]) h
    | some r =>
      have hr : r.1.pressed = false := by
        unfold debounce at hd
        cases hb : busyPoll levels fuel 0 with
        | none => rw [hb] at hd; exact absurd hd (by simp)
        | some j =>
          rw [hb] at hd
          simp only [Option.some.injEq] at hd
          rw [← hd]
      have hstep : (step Label.debounceRun levels fuel s).pressed = false := by
        simp [step, hd, hr]
      cases hs : s.pressed with
      | false => rw [hstep, hs] at h; exact absurd rfl h
      | true => exact Or.inr ⟨rfl, hstep, rfl⟩

theorem c4_flag_transitions_witness :
    ((step Label.irq stuckReleased 0 sIdle).pressed ≠ sIdle.pressed) ∧
    ((sIdle.pressed = false ∧ (step Label.irq stuckReleased 0 sIdle).pressed = true ∧
        Label.irq = Label.irq) ∨
     (sIdle.pressed = true ∧ (step Label.irq stuckReleased 0 sIdle).pressed = false ∧
        Label.irq = Label.debounceRun)) :=
  ⟨by decide, c4_flag_transitions Label.irq stuckReleased 0 sIdle (by decide)⟩

/-- C5: a burst of `n ≥ 1` falling edges arriving before the `debounce`
task runs produces exactly one LED toggle and exactly one deferred
spawn, and the LED level ends up toggled exactly once. -/
theorem c5_single_toggle (n : Nat) (hn : 1 ≤ n) (s : SysState)
    (hp : s.pressed = false) (hd : s.debouncePending = false) :
    toggleCount (burst n s).2 = 1 ∧ schedCount (burst n s).2 = 1 ∧
    (burst n s).1.led.level = !s.led.level := by
  obtain ⟨m, rfl⟩ : ∃ m, n = m + 1 := ⟨n - 1, by omega⟩
  have hf := int_toggle_fresh s hp hd
  have hfst : (burst (m + 1) s).1 = (burst m (int_toggle s).state).1 := rfl
  have hsnd : (burst (m + 1) s).2 =
      (int_toggle s).events ++ (burst m (int_toggle s).state).2 := rfl
  have hps : (int_toggle s).state.pressed = true := by rw [hf]
  obtain ⟨hb1, hb2, hb3, hb4⟩ := burst_bounce m (int_toggle s).state hps
  refine ⟨?_, ?_, ?_⟩
  · rw [hsnd, toggleCount_append, hb3, hf]; rfl
  · rw [hsnd, schedCount_append, hb4, hf]; rfl
  · rw [hfst, hb2, hf]; rfl

theorem c5_single_toggle_witness :
    (1 ≤ 3 ∧ sIdle.pressed = false ∧ sIdle.debouncePending = false) ∧
    (toggleCount (burst 3 sIdle).2 = 1 ∧ schedCount (burst 3 sIdle).2 = 1 ∧
     (burst 3 sIdle).1.led.level = !sIdle.led.level) :=
  ⟨by decide, c5_single_toggle 3 (by decide) sIdle (by decide) (by decide)⟩

/-- C6: when `int_toggle` runs with `pressed = true` (a bounce), the
only state change is clearing the pending-interrupt latch: `pressed`,
the LED and the scheduler queue are untouched, no `debounce` task is
scheduled, there is no panic, and the only effect is the bounce trace
message. -/
theorem c6_bounce_frame (s : SysState) (h : s.pressed = true) :
    (int_toggle s).state.pressed = s.pressed ∧
    (int_toggle s).state.led = s.led ∧
    (int_toggle s).state.debouncePending = s.debouncePending ∧
    (int_toggle s).state.button = s.button.clear_triggered ∧
    (int_toggle s).events = [Event.log LogMsg.bounce] ∧
    (int_toggle s).panicked = false := by
  rw [int_toggle_bounce s h]
  simp

theorem c6_bounce_frame_witness :
    sWindow.pressed = true ∧
    ((int_toggle sWindow).state.pressed = sWindow.pressed ∧
     (int_toggle sWindow).state.led = sWindow.led ∧
     (int_toggle sWindow).state.debouncePending = sWindow.debouncePending ∧
     (int_toggle sWindow).state.button = sWindow.button.clear_triggered ∧
     (int_toggle sWindow).events = [Event.log LogMsg.bounce] ∧
     (int_toggle sWindow).panicked = false) :=
  ⟨by decide, c6_bounce_frame sWindow (by decide)⟩

/-- C7: when the deferred spawn fails (a `debounce` task is already
pending), `int_toggle` panics via the `unwrap` on the spawn result
instead of ignoring the error and continuing. -/
theorem c7_spawn_failure_panics (s : SysState) (h1 : s.pressed = false)
    (h2 : spawn_after s.debouncePending delay_500ms =
          Except.error SpawnError.alreadyPending) :
    (int_toggle s).panicked = true := by
  unfold int_toggle
  rw [h2]
  simp [h1]

theorem c7_spawn_failure_panics_witness :
    (sStale.pressed = false ∧
     spawn_after sStale.debouncePending delay_500ms =
       Except.error SpawnError.alreadyPending) ∧
    (int_toggle sStale).panicked = true :=
  ⟨⟨rfl, rfl⟩, c7_spawn_failure_panics sStale rfl rfl⟩

/-- C8: in both task bodies the `button` and `pressed` lock regions are
strictly sequential: at no point of either body is more than one
resource held. -/
theorem c8_locks_sequential :
    sequentialLocks intToggleLocks = true ∧ sequentialLocks debounceLocks = true := by
  decide

/-- C9: the busy-poll terminates exactly when a low (= pressed) sample
is reached: it returns at the very first sample on a stuck-closed,
permanently low line, and spins forever on a permanently released,
high line — the reverse of the specified stuck-closed behaviour. -/
theorem c9_poll_polarity :
    busyPoll stuckPressed 1 0 = some 0 ∧
    ∀ fuel i, busyPoll stuckReleased fuel i = none := by
  refine ⟨rfl, ?_⟩
  intro fuel
  induction fuel with
  | zero => intro i; rfl
  | succ n ih =>
    intro i
    rw [busyPoll]
    simp only [stuckReleased, levelIsSet, if_true]
    exact ih (i + 1)

/-- C10: whatever electrical level and pending latch the hardware starts
with, `init` yields `pressed = false`, the LED driven low, the pull-up
configured and the falling-edge trigger armed — and the first edge
interrupt therefore takes the new-press branch, toggling the LED once
and scheduling the `debounce` task. -/
theorem c10_init_state (lvl : Level) (pending : Bool) :
    (init lvl pending).pressed = false ∧
    (init lvl pending).led.level = false ∧
    (init lvl pending).button.pullup = true ∧
    (init lvl pending).button.fallingEdgeIrq = true ∧
    (int_toggle (init lvl pending)).events =
      [Event.log LogMsg.interruptTriggered, Event.toggleLed,
       Event.scheduleDebounce delay_500ms] := by
  refine ⟨rfl, rfl, rfl, rfl, ?_⟩
  rw [int_toggle_fresh (init lvl pending) rfl rfl]
